import Mathlib

/-!
Shallow embedding of the client-side list controller of
`src/client/src/components/GameList.svelte`: filter selection, pagination
state, URL state synchronisation and the fetch state machine, together with
models of the JavaScript primitives the component relies on
(`Number.prototype.toString`, `Number.parseInt`, `URLSearchParams`).
-/

namespace GameList

/-! ### Models of JavaScript numeric/string primitives -/

/-- The decimal digit character for `d` (meaningful for `d < 10`). -/
def digitChar (d : Nat) : Char := Char.ofNat (48 + d)

/-- Fuel-driven decimal rendering of a natural number, most significant digit
first; mirrors `Number.prototype.toString` on non-negative integers. -/
def natToDecimalAux : Nat → Nat → List Char
  | 0, _ => []
  | fuel + 1, n =>
    if n < 10 then [digitChar n]
    else natToDecimalAux fuel (n / 10) ++ [digitChar (n % 10)]

/-- Decimal rendering of a natural number. -/
def natToDecimal (n : Nat) : List Char := natToDecimalAux (n + 1) n

/-- Model of JavaScript `Number.prototype.toString` on integer values. -/
def jsNumToString (i : Int) : String :=
  if i < 0 then String.mk ('-' :: natToDecimal (-i).toNat)
  else String.mk (natToDecimal i.toNat)

/-- The whitespace characters `Number.parseInt` skips before parsing. -/
def jsWhitespace (c : Char) : Bool := c = ' ' || c = '\t' || c = '\n' || c = '\r'

/-- Value of a list of decimal digit characters, most significant first. -/
def digitsToNat (cs : List Char) : Nat :=
  cs.foldl (fun a c => a * 10 + (c.toNat - 48)) 0

/-- Parses the longest leading run of decimal digits; `none` when there is no
digit at all (JavaScript `NaN`). -/
def parseLeadingDigits (cs : List Char) : Option Nat :=
  if (cs.takeWhile Char.isDigit).isEmpty then none
  else some (digitsToNat (cs.takeWhile Char.isDigit))

/-- Model of JavaScript `Number.parseInt(s, 10)`; `none` models `NaN`.
Leading whitespace is skipped, an optional sign is honoured, trailing
non-digit characters are ignored. -/
def jsParseInt (s : String) : Option Int :=
  match s.data.dropWhile jsWhitespace with
  | [] => none
  | c :: rest =>
    if c = '-' then (parseLeadingDigits rest).map (fun n => -(n : Int))
    else if c = '+' then (parseLeadingDigits rest).map (fun n => (n : Int))
    else (parseLeadingDigits (c :: rest)).map (fun n => (n : Int))

/-! ### Data model (interfaces of GameList.svelte) -/

/-- An `{id, name}` reference object (publisher or category). -/
structure ApiName where
  id : Int
  name : String
deriving DecidableEq, Repr

/-- Model of `GameApiResponse`: the raw API item; `publisher`/`category` may be absent
or `null` (both modelled as `none`), likewise `starRating`. -/
structure GameApiResponse where
  id : Int
  title : String
  description : String
  publisher : Option ApiName
  category : Option ApiName
  starRating : Option Int
deriving DecidableEq, Repr

/-- Model of `Game`: the flattened render shape. -/
structure Game where
  id : Int
  title : String
  description : String
  publisher_name : Option String
  category_name : Option String
  starRating : Option Int
deriving DecidableEq, Repr

/-- Model of `Pagination`: the server-returned pagination metadata. -/
structure Pagination where
  page : Int
  per_page : Int
  total_items : Int
  total_pages : Int
  has_next : Bool
  has_previous : Bool
deriving DecidableEq, Repr

/-- The parsed JSON body of a `/api/games` response; `none` fields model a
well-formed JSON object lacking the `games` / `pagination` keys. -/
structure Payload where
  games : Option (List GameApiResponse)
  pagination : Option Pagination
deriving DecidableEq, Repr

/-- The flattening `apiGames.map((game) => ...)` of `fetchGames`. -/
def flattenGame (g : GameApiResponse) : Game :=
  { id := g.id
    title := g.title
    description := g.description
    publisher_name := g.publisher.map (fun p => p.name)
    category_name := g.category.map (fun c => c.name)
    starRating := g.starRating }

/-- The component's mutable state: the script-level `let` bindings of
GameList.svelte, plus the browser location's query parameters (decoded, in
insertion order) as the one external resource the component touches. -/
structure ComponentState where
  games : List Game
  loading : Bool
  error : Option String
  selectedPublisherId : String
  selectedCategoryId : String
  pagination : Pagination
  currentPage : Int
  pageSize : Int
  location : List (String × String)
deriving DecidableEq, Repr

/-- The `pageSizeOptions` constant of the component. -/
def pageSizeOptions : List Int := [10, 20, 50]

/-- The initial `pagination` literal. -/
def initialPagination : Pagination :=
  { page := 1, per_page := 20, total_items := 0, total_pages := 1,
    has_next := false, has_previous := false }

/-- The component state right after script initialisation. -/
def initialState : ComponentState :=
  { games := [], loading := true, error := none, selectedPublisherId := "",
    selectedCategoryId := "", pagination := initialPagination,
    currentPage := 1, pageSize := 20, location := [] }

/-! ### URLSearchParams model -/

/-- Model of `params.get(key)`: first value stored under `key`, if any. -/
def getParam : List (String × String) → String → Option String
  | [], _ => none
  | (k, v) :: rest, key => if k = key then some v else getParam rest key

/-! ### PaginationEngine: the derived pagination window -/

/-- An entry of the pagination display: a page number or an ellipsis. -/
inductive PageItem where
  | page : Int → PageItem
  | ellipsis : PageItem
deriving DecidableEq, Repr

/-- The reactive `paginationItems` computation (windowSize is the constant 2
of the source). -/
def paginationItems (total current : Int) : List PageItem :=
  if total ≤ 7 then
    (List.range total.toNat).map (fun (i : Nat) => PageItem.page ((i : Int) + 1))
  else
    let windowSize : Int := 2
    let lo := max 2 (current - windowSize)
    let hi := min (total - 1) (current + windowSize)
    let items0 := [PageItem.page 1]
    let items1 := if current > windowSize + 2 then items0 ++ [PageItem.ellipsis] else items0
    let items2 := items1 ++
      (List.range (hi - lo + 1).toNat).map (fun (i : Nat) => PageItem.page (lo + (i : Int)))
    let items3 := if current < total - windowSize - 1 then items2 ++ [PageItem.ellipsis] else items2
    items3 ++ [PageItem.page total]

/-- Reference definition of the pagination window, written from the words of
spec §4.2: `1..total` when `total ≤ 7`; otherwise `1`, an ellipsis iff
`current > windowSize + 2`, every integer in
`[max(2, current − windowSize), min(total − 1, current + windowSize)]`, an
ellipsis iff `current < total − windowSize − 1`, then `total`. -/
def computeWindowSpec (current total windowSize : Int) : List PageItem :=
  if total ≤ 7 then
    (List.range total.toNat).map (fun (i : Nat) => PageItem.page ((i : Int) + 1))
  else
    [PageItem.page 1]
    ++ (if current > windowSize + 2 then [PageItem.ellipsis] else [])
    ++ (List.range
          ((min (total - 1) (current + windowSize)) - (max 2 (current - windowSize)) + 1).toNat).map
        (fun (i : Nat) => PageItem.page ((max 2 (current - windowSize)) + (i : Int)))
    ++ (if current < total - windowSize - 1 then [PageItem.ellipsis] else [])
    ++ [PageItem.page total]

/-- The page numbers of a pagination display, ellipsis markers dropped. -/
def numericEntries (l : List PageItem) : List Int :=
  l.filterMap (fun x => match x with | PageItem.page n => some n | PageItem.ellipsis => none)

/-! ### URLStateSync -/

/-- Model of `syncFiltersFromUrl`: populates filters, page and page size from the
location's query parameters. -/
def syncFiltersFromUrl (ps : List (String × String)) (st : ComponentState) :
    ComponentState :=
  let urlCategoryId := (getParam ps "category_id").getD ""
  let urlPublisherId := (getParam ps "publisher_id").getD ""
  let urlPage := getParam ps "page"
  let urlPerPage := getParam ps "per_page"
  let parsedPage : Option Int :=
    match urlPage with
    | some s => if s = "" then some 1 else jsParseInt s
    | none => some 1
  let newPage : Int :=
    match parsedPage with
    | none => 1
    | some v => if v < 1 then 1 else v
  let st1 := { st with selectedCategoryId := urlCategoryId,
                       selectedPublisherId := urlPublisherId,
                       currentPage := newPage }
  match urlPerPage with
  | some s =>
    if s = "" then st1
    else
      match jsParseInt s with
      | some v => if pageSizeOptions.contains v then { st1 with pageSize := v } else st1
      | none => st1
  | none => st1

/-- The query parameters `updateBrowserUrl` writes (category first, then
publisher, then page and per_page; unset filters are omitted entirely). -/
def urlQueryParams (categoryId publisherId : String) (p : Pagination) :
    List (String × String) :=
  (if categoryId ≠ "" then [("category_id", categoryId)] else [])
  ++ (if publisherId ≠ "" then [("publisher_id", publisherId)] else [])
  ++ [("page", jsNumToString p.page), ("per_page", jsNumToString p.per_page)]

/-- Model of `updateBrowserUrl(paginationState)`: replaces the location's query string
(`history.replaceState`). -/
def updateBrowserUrl (st : ComponentState) (p : Pagination) : ComponentState :=
  { st with location := urlQueryParams st.selectedCategoryId st.selectedPublisherId p }

/-! ### ListFetcher -/

/-- The query parameters `fetchGames` sends (publisher first, then category,
then page and per_page). -/
def fetchQuery (st : ComponentState) : List (String × String) :=
  (if st.selectedPublisherId ≠ "" then [("publisher_id", st.selectedPublisherId)] else [])
  ++ (if st.selectedCategoryId ≠ "" then [("category_id", st.selectedCategoryId)] else [])
  ++ [("page", jsNumToString st.currentPage), ("per_page", jsNumToString st.pageSize)]

/-- Result of `response.json()`: either the promise rejects (malformed body)
or it resolves to a parsed payload. -/
inductive JsonResult where
  | parseError : String → JsonResult
  | ok : Payload → JsonResult
deriving DecidableEq, Repr

/-- Outcome of the awaited `fetch`: the request itself throws, or an HTTP
response with a status, status text and body arrives. -/
inductive FetchOutcome where
  | networkError : String → FetchOutcome
  | http : Int → String → JsonResult → FetchOutcome
deriving DecidableEq, Repr

/-- Model of `Response.ok`: status in the 2xx range. -/
def responseOk (status : Int) : Bool := decide (200 ≤ status ∧ status < 300)

/-- Outcomes on which `fetchGames` takes the error path: a thrown transport
or body-parse exception, or a non-2xx HTTP status. -/
def isFailureOutcome : FetchOutcome → Bool
  | FetchOutcome.networkError _ => true
  | FetchOutcome.http status _ body =>
    !responseOk status ||
      (match body with | JsonResult.parseError _ => true | JsonResult.ok _ => false)

/-- Model of `fetchGames`: one complete round trip of the fetch state machine, from
`loading = true` through response handling to the `finally` block. -/
def fetchGames (st : ComponentState) (o : FetchOutcome) : ComponentState :=
  let stL := { st with loading := true }
  match o with
  | FetchOutcome.networkError msg =>
    { stL with error := some ("Error: " ++ msg), loading := false }
  | FetchOutcome.http status statusText body =>
    if responseOk status then
      match body with
      | JsonResult.parseError msg =>
        { stL with error := some ("Error: " ++ msg), loading := false }
      | JsonResult.ok payload =>
        let apiGames := payload.games.getD []
        let apiPagination := payload.pagination.getD stL.pagination
        let stS := { stL with
          games := apiGames.map flattenGame
          pagination := apiPagination
          currentPage := apiPagination.page
          pageSize := apiPagination.per_page }
        { updateBrowserUrl stS apiPagination with loading := false }
    else
      { stL with
        error := some ("Failed to fetch data: " ++ jsNumToString status ++ " " ++ statusText),
        loading := false }

/-- The rendering layer's three-way branch: loading skeleton, error display,
or the item list / empty message. -/
inductive FetchState where
  | Loading : FetchState
  | Failure : FetchState
  | Success : FetchState
deriving DecidableEq, Repr

/-- Which branch the markup renders for a given state. -/
def renderState (st : ComponentState) : FetchState :=
  if st.loading then FetchState.Loading
  else if st.error.isSome then FetchState.Failure
  else FetchState.Success

/-! ### User-driven transitions -/

/-- Model of `handleFilterChange`: reset to page 1 and trigger a fetch (the `Bool`
records that a fetch was triggered). -/
def handleFilterChange (st : ComponentState) : ComponentState × Bool :=
  ({ st with currentPage := 1 }, true)

/-- Model of `clearFilters`: unset both filters, reset to page 1, trigger a fetch. -/
def clearFilters (st : ComponentState) : ComponentState × Bool :=
  ({ st with selectedPublisherId := "", selectedCategoryId := "", currentPage := 1 }, true)

/-- Model of `changePage(page)`: guarded page change; fetch only inside the guard. -/
def changePage (page : Int) (st : ComponentState) : ComponentState × Bool :=
  if page ≠ st.currentPage ∧ 1 ≤ page ∧ page ≤ st.pagination.total_pages then
    ({ st with currentPage := page }, true)
  else (st, false)

/-- Model of `changePageSize(size)`: set the size, reset to page 1, trigger a fetch. -/
def changePageSize (size : Int) (st : ComponentState) : ComponentState × Bool :=
  ({ st with pageSize := size, currentPage := 1 }, true)

/-- The operations that can touch the component state after mount. -/
inductive Action where
  | filterChange : Action
  | clearAll : Action
  | page : Int → Action
  | size : Int → Action
  | fetch : FetchOutcome → Action
deriving DecidableEq, Repr

/-- One step of the component: the synchronous part of each handler, and a
full fetch round trip for `Action.fetch`. -/
def step (a : Action) (st : ComponentState) : ComponentState :=
  match a with
  | Action.filterChange => (handleFilterChange st).1
  | Action.clearAll => (clearFilters st).1
  | Action.page p => (changePage p st).1
  | Action.size s => (changePageSize s st).1
  | Action.fetch o => fetchGames st o

/-! ### Theorems -/

/-! ### Round-trip facts about the primitives -/

theorem natToDecimalAux_congr :
    ∀ fuelA fuelB n, n < fuelA → n < fuelB →
      natToDecimalAux fuelA n = natToDecimalAux fuelB n := by
  intro fuelA
  induction fuelA with
  | zero => intro fuelB n h; omega
  | succ f ih =>
    intro fuelB n hA hB
    cases fuelB with
    | zero => omega
    | succ g =>
      simp only [natToDecimalAux]
      by_cases h10 : n < 10
      · simp [h10]
      · have hdiv : n / 10 < n := Nat.div_lt_self (by omega) (by omega)
        rw [if_neg h10, if_neg h10, ih g (n / 10) (by omega) (by omega)]

theorem natToDecimal_eq (n : Nat) :
    natToDecimal n =
      if n < 10 then [digitChar n]
      else natToDecimal (n / 10) ++ [digitChar (n % 10)] := by
  by_cases h10 : n < 10
  · simp [natToDecimal, natToDecimalAux, h10]
  · have hdiv : n / 10 < n := Nat.div_lt_self (by omega) (by omega)
    rw [if_neg h10]
    show natToDecimalAux (n + 1) n = _
    rw [show natToDecimalAux (n + 1) n =
        if n < 10 then [digitChar n]
        else natToDecimalAux n (n / 10) ++ [digitChar (n % 10)] from rfl]
    rw [if_neg h10]
    congr 1
    show natToDecimalAux n (n / 10) = natToDecimalAux (n / 10 + 1) (n / 10)
    exact natToDecimalAux_congr n (n / 10 + 1) (n / 10) (by omega) (by omega)

theorem natToDecimal_ne_nil (n : Nat) : natToDecimal n ≠ [] := by
  rw [natToDecimal_eq]
  split <;> simp

theorem natToDecimal_mem (n : Nat) :
    ∀ c ∈ natToDecimal n, ∃ d, d < 10 ∧ c = digitChar d := by
  induction n using Nat.strong_induction_on with
  | _ n ih =>
    rw [natToDecimal_eq]
    by_cases h10 : n < 10
    · rw [if_pos h10]
      intro c hc
      simp only [List.mem_singleton] at hc
      exact ⟨n, h10, hc⟩
    · rw [if_neg h10]
      intro c hc
      rcases List.mem_append.1 hc with hl | hr
      · exact ih (n / 10) (Nat.div_lt_self (by omega) (by omega)) c hl
      · simp only [List.mem_singleton] at hr
        exact ⟨n % 10, Nat.mod_lt _ (by omega), hr⟩

theorem digitChar_toNat : ∀ d, d < 10 → (digitChar d).toNat = 48 + d := by decide

theorem digitChar_isDigit : ∀ d, d < 10 → (digitChar d).isDigit = true := by decide

theorem digitChar_not_ws : ∀ d, d < 10 → jsWhitespace (digitChar d) = false := by decide

theorem digitChar_ne_minus : ∀ d, d < 10 → digitChar d ≠ '-' := by decide

theorem digitChar_ne_plus : ∀ d, d < 10 → digitChar d ≠ '+' := by decide

theorem foldl_digitsToNat (n : Nat) :
    ∀ acc, (natToDecimal n).foldl (fun a c => a * 10 + (c.toNat - 48)) acc =
      acc * 10 ^ (natToDecimal n).length + n := by
  induction n using Nat.strong_induction_on with
  | _ n ih =>
    intro acc
    rw [natToDecimal_eq]
    by_cases h10 : n < 10
    · rw [if_pos h10]
      simp only [List.foldl_cons, List.foldl_nil, List.length_singleton]
      rw [digitChar_toNat n h10]
      omega
    · rw [if_neg h10]
      have hdiv : n / 10 < n := Nat.div_lt_self (by omega) (by omega)
      rw [List.foldl_append, ih (n / 10) hdiv acc]
      simp only [List.foldl_cons, List.foldl_nil, List.length_append,
        List.length_singleton]
      rw [digitChar_toNat (n % 10) (Nat.mod_lt _ (by omega))]
      have hdm := Nat.div_add_mod n 10
      rw [pow_succ, ← Nat.mul_assoc]
      generalize acc * 10 ^ (natToDecimal (n / 10)).length = A
      omega

theorem digitsToNat_natToDecimal (n : Nat) : digitsToNat (natToDecimal n) = n := by
  have h := foldl_digitsToNat n 0
  simpa [digitsToNat] using h

theorem takeWhile_of_all {α : Type} (p : α → Bool) :
    ∀ l : List α, (∀ c ∈ l, p c = true) → l.takeWhile p = l := by
  intro l
  induction l with
  | nil => intro _; rfl
  | cons a l ih =>
    intro h
    have ha := h a (List.mem_cons_self a l)
    rw [List.takeWhile_cons, ha, if_pos rfl,
      ih (fun c hc => h c (List.mem_cons_of_mem a hc))]

theorem jsParseInt_natToDecimal (n : Nat) :
    jsParseInt (String.mk (natToDecimal n)) = some (n : Int) := by
  cases hnd : natToDecimal n with
  | nil => exact absurd hnd (natToDecimal_ne_nil n)
  | cons c rest =>
    obtain ⟨d, hd, rfl⟩ :=
      natToDecimal_mem n c (hnd ▸ List.mem_cons_self c rest)
    have hdata : (String.mk (natToDecimal n)).data = digitChar d :: rest := hnd
    have hdigits : ∀ x ∈ natToDecimal n, Char.isDigit x = true := by
      intro x hx
      obtain ⟨e, he, rfl⟩ := natToDecimal_mem n x hx
      exact digitChar_isDigit e he
    have htake : (digitChar d :: rest).takeWhile Char.isDigit = digitChar d :: rest := by
      rw [← hnd]; exact takeWhile_of_all Char.isDigit _ hdigits
    have hlead : parseLeadingDigits (digitChar d :: rest) = some n := by
      simp only [parseLeadingDigits, htake, List.isEmpty_cons]
      rw [if_neg (by simp)]
      rw [← hnd, digitsToNat_natToDecimal]
    simp only [jsParseInt, hdata]
    rw [List.dropWhile_cons, digitChar_not_ws d hd]
    simp only [Bool.false_eq_true, if_false]
    rw [if_neg (digitChar_ne_minus d hd), if_neg (digitChar_ne_plus d hd), hlead]
    rfl

theorem jsParseInt_jsNumToString (i : Int) (h : 0 ≤ i) :
    jsParseInt (jsNumToString i) = some i := by
  rw [jsNumToString, if_neg (by omega), jsParseInt_natToDecimal i.toNat,
    Int.toNat_of_nonneg h]

theorem jsNumToString_ne_empty (i : Int) : jsNumToString i ≠ "" := by
  rw [jsNumToString]
  split
  · intro hcontra
    have : ('-' :: natToDecimal (-i).toNat) = [] := congrArg String.data hcontra
    simp at this
  · intro hcontra
    have : natToDecimal i.toNat = [] := congrArg String.data hcontra
    exact natToDecimal_ne_nil _ this

/-! ### Claim C1: body-parse failures -/

/-- C1 (counterexample): a successful HTTP response whose body is well-formed
JSON but lacks the expected `games`/`pagination` fields does NOT put the
fetcher into the Failure state: no error is recorded and the rendering layer
shows the success branch. -/
theorem spec_C1_counterexample :
    (fetchGames initialState
      (FetchOutcome.http 200 "OK" (JsonResult.ok ⟨none, none⟩))).error = none ∧
    renderState (fetchGames initialState
      (FetchOutcome.http 200 "OK" (JsonResult.ok ⟨none, none⟩))) = FetchState.Success :=
  ⟨rfl, rfl⟩

/-- C1 (amended): on a successful HTTP response whose body fails to parse as
JSON (the `response.json()` promise rejects), or on a transport exception,
the fetcher transitions to Failure with a message derived from the exception;
a well-formed JSON body lacking the expected `games`/`pagination` fields is
instead treated as success: the error value is untouched and the item list
becomes empty. -/
theorem spec_C1 (st : ComponentState) (status : Int) (text msg : String)
    (payload : Payload) (hok : responseOk status = true) :
    ((fetchGames st (FetchOutcome.http status text (JsonResult.parseError msg))).error
        = some ("Error: " ++ msg) ∧
      renderState (fetchGames st (FetchOutcome.http status text (JsonResult.parseError msg)))
        = FetchState.Failure) ∧
    ((fetchGames st (FetchOutcome.networkError msg)).error = some ("Error: " ++ msg) ∧
      renderState (fetchGames st (FetchOutcome.networkError msg)) = FetchState.Failure) ∧
    (payload.games = none → payload.pagination = none →
      (fetchGames st (FetchOutcome.http status text (JsonResult.ok payload))).error = st.error ∧
      (fetchGames st (FetchOutcome.http status text (JsonResult.ok payload))).games = []) := by
  refine ⟨⟨?_, ?_⟩, ⟨?_, ?_⟩, fun hg hp => ⟨?_, ?_⟩⟩
  · simp [fetchGames, hok]
  · simp [fetchGames, hok, renderState]
  · simp [fetchGames]
  · simp [fetchGames, renderState]
  · simp [fetchGames, hok, hg, hp, updateBrowserUrl]
  · simp [fetchGames, hok, hg, hp, updateBrowserUrl]

theorem spec_C1_witness :
    (fetchGames initialState (FetchOutcome.http 200 "OK" (JsonResult.parseError "boom"))).error
      = some ("Error: " ++ "boom") ∧
    (fetchGames initialState
      (FetchOutcome.http 200 "OK" (JsonResult.ok ⟨none, none⟩))).games = [] :=
  ⟨((spec_C1 initialState 200 "OK" "boom" ⟨none, none⟩ (by decide)).1).1,
   ((spec_C1 initialState 200 "OK" "boom" ⟨none, none⟩ (by decide)).2.2 rfl rfl).2⟩

/-! ### Claim C4: non-2xx responses -/

/-- C4: a non-2xx HTTP response leaves the fetcher in Failure with a message
containing the numeric status code and the status text, and the fetched
items are not written to the games store. -/
theorem spec_C4 (st : ComponentState) (status : Int) (text : String)
    (body : JsonResult) (h : responseOk status = false) :
    (fetchGames st (FetchOutcome.http status text body)).error
      = some ("Failed to fetch data: " ++ jsNumToString status ++ " " ++ text) ∧
    (fetchGames st (FetchOutcome.http status text body)).games = st.games ∧
    renderState (fetchGames st (FetchOutcome.http status text body)) = FetchState.Failure ∧
    (∃ a b : String,
      "Failed to fetch data: " ++ jsNumToString status ++ " " ++ text
        = a ++ jsNumToString status ++ b) ∧
    (∃ a b : String,
      "Failed to fetch data: " ++ jsNumToString status ++ " " ++ text
        = a ++ text ++ b) := by
  refine ⟨?_, ?_, ?_, ⟨"Failed to fetch data: ", " " ++ text, ?_⟩,
    ⟨"Failed to fetch data: " ++ jsNumToString status ++ " ", "", ?_⟩⟩
  · simp [fetchGames, h]
  · simp [fetchGames, h]
  · simp [fetchGames, h, renderState]
  · simp [String.append_assoc]
  · simp [String.append_assoc]

theorem spec_C4_witness :
    (fetchGames initialState
      (FetchOutcome.http 404 "Not Found" (JsonResult.ok ⟨none, none⟩))).error
      = some ("Failed to fetch data: " ++ jsNumToString 404 ++ " " ++ "Not Found") ∧
    (fetchGames initialState
      (FetchOutcome.http 404 "Not Found" (JsonResult.ok ⟨none, none⟩))).games
      = initialState.games :=
  ⟨(spec_C4 initialState 404 "Not Found" (JsonResult.ok ⟨none, none⟩) (by decide)).1,
   (spec_C4 initialState 404 "Not Found" (JsonResult.ok ⟨none, none⟩) (by decide)).2.1⟩

/-! ### Claim C5: success replaces pagination from the server -/

/-- C5: a successful fetch replaces the pagination state entirely from the
server-returned metadata (page and perPage become the server's values),
totals are taken verbatim from the server, and the browser location is
written from that server-confirmed state; on any failed fetch the location
is not written at all. -/
theorem spec_C5 :
    (∀ (st : ComponentState) (status : Int) (text : String) (payload : Payload)
        (pg : Pagination), responseOk status = true → payload.pagination = some pg →
      (fetchGames st (FetchOutcome.http status text (JsonResult.ok payload))).pagination = pg ∧
      (fetchGames st (FetchOutcome.http status text (JsonResult.ok payload))).currentPage
        = pg.page ∧
      (fetchGames st (FetchOutcome.http status text (JsonResult.ok payload))).pageSize
        = pg.per_page ∧
      (fetchGames st (FetchOutcome.http status text (JsonResult.ok payload))).pagination.total_pages
        = pg.total_pages ∧
      (fetchGames st (FetchOutcome.http status text (JsonResult.ok payload))).pagination.total_items
        = pg.total_items ∧
      (fetchGames st (FetchOutcome.http status text (JsonResult.ok payload))).location
        = urlQueryParams st.selectedCategoryId st.selectedPublisherId pg) ∧
    (∀ (st : ComponentState) (o : FetchOutcome), isFailureOutcome o = true →
      (fetchGames st o).location = st.location) := by
  constructor
  · intro st status text payload pg hok hp
    refine ⟨?_, ?_, ?_, ?_, ?_, ?_⟩ <;>
      simp [fetchGames, hok, hp, updateBrowserUrl]
  · intro st o h
    cases o with
    | networkError msg => simp [fetchGames]
    | http status text body =>
      simp only [isFailureOutcome] at h
      by_cases hok : responseOk status
      · cases body with
        | parseError msg => simp [fetchGames, hok]
        | ok payload => simp [hok] at h
      · simp [fetchGames, hok]

theorem spec_C5_witness :
    (fetchGames initialState
      (FetchOutcome.http 200 "OK"
        (JsonResult.ok ⟨some [], some ⟨2, 50, 95, 2, false, true⟩⟩))).pagination
      = ⟨2, 50, 95, 2, false, true⟩ ∧
    (fetchGames initialState (FetchOutcome.networkError "down")).location
      = initialState.location :=
  ⟨(spec_C5.1 initialState 200 "OK" ⟨some [], some ⟨2, 50, 95, 2, false, true⟩⟩
      ⟨2, 50, 95, 2, false, true⟩ (by decide) rfl).1,
   spec_C5.2 initialState (FetchOutcome.networkError "down") (by decide)⟩

/-! ### Claim C6: changePage guard -/

/-- C6: `changePage(requested)` is a no-op when the requested page equals the
current page or lies outside `[1, totalPages]`; otherwise it updates only the
current page and triggers a fetch, leaving everything else unchanged. -/
theorem spec_C6 (st : ComponentState) (p : Int) :
    ((p = st.currentPage ∨ p < 1 ∨ st.pagination.total_pages < p) →
      changePage p st = (st, false)) ∧
    (p ≠ st.currentPage → 1 ≤ p → p ≤ st.pagination.total_pages →
      changePage p st = ({ st with currentPage := p }, true)) := by
  constructor
  · intro h
    rw [changePage, if_neg]
    rintro ⟨h1, h2, h3⟩
    rcases h with h | h | h <;> omega
  · intro h1 h2 h3
    rw [changePage, if_pos ⟨h1, h2, h3⟩]

theorem spec_C6_witness :
    changePage 1 initialState = (initialState, false) ∧
    changePage 2 { initialState with pagination := { initialPagination with total_pages := 5 } }
      = ({ { initialState with pagination := { initialPagination with total_pages := 5 } } with
            currentPage := 2 }, true) :=
  ⟨(spec_C6 initialState 1).1 (Or.inl rfl),
   (spec_C6 { initialState with pagination := { initialPagination with total_pages := 5 } } 2).2
      (by decide) (by decide) (by decide)⟩

/-! ### Claim C7: filter changes reset the page -/

/-- C7: every filter change and `clearFilters` resets the current page to 1
before triggering a fetch; `clearFilters` also unsets both filter dimensions,
so the query of the fetch it triggers contains neither `category_id` nor
`publisher_id`. -/
theorem spec_C7 (st : ComponentState) :
    (handleFilterChange st).1.currentPage = 1 ∧ (handleFilterChange st).2 = true ∧
    (clearFilters st).1.currentPage = 1 ∧ (clearFilters st).2 = true ∧
    (clearFilters st).1.selectedCategoryId = "" ∧
    (clearFilters st).1.selectedPublisherId = "" ∧
    (fetchQuery (clearFilters st).1).all
      (fun kv => !(kv.1 == "category_id") && !(kv.1 == "publisher_id")) = true := by
  refine ⟨rfl, rfl, rfl, rfl, rfl, rfl, ?_⟩
  simp [fetchQuery, clearFilters]

/-! ### Claim C9: the error value is sticky -/

/-- C9: once `error` holds a non-null string, no sequence of subsequent
operations (filter change, clear, page change, page-size change, or any
further fetch, successful or not) ever resets it to null. -/
theorem spec_C9 (acts : List Action) (st : ComponentState)
    (h : st.error.isSome = true) :
    ((acts.foldl (fun s a => step a s) st).error).isSome = true := by
  induction acts generalizing st with
  | nil => exact h
  | cons a acts ih =>
    rw [List.foldl_cons]
    apply ih
    cases a with
    | filterChange => exact h
    | clearAll => exact h
    | page p =>
      simp only [step, changePage]
      split <;> exact h
    | size s => exact h
    | fetch o =>
      cases o with
      | networkError msg => simp [step, fetchGames]
      | http status text body =>
        by_cases hok : responseOk status
        · cases body with
          | parseError msg => simp [step, fetchGames, hok]
          | ok payload =>
            simp only [step, fetchGames, hok, if_pos, updateBrowserUrl]
            exact h
        · simp [step, fetchGames, hok]

theorem spec_C9_witness :
    ((([Action.fetch (FetchOutcome.http 200 "OK" (JsonResult.ok ⟨some [], none⟩)),
        Action.clearAll]).foldl (fun s a => step a s)
      { initialState with error := some "Error: down" }).error).isSome = true :=
  spec_C9 [Action.fetch (FetchOutcome.http 200 "OK" (JsonResult.ok ⟨some [], none⟩)),
    Action.clearAll] { initialState with error := some "Error: down" } rfl

/-! ### Claim C10: failed fetches change nothing but error and loading -/

/-- C10: a fetch that fails (non-2xx status, transport exception or body
parse exception) leaves every piece of state other than the error message
and the loading flag unchanged, and does not write the browser location. -/
theorem spec_C10 (st : ComponentState) (o : FetchOutcome)
    (h : isFailureOutcome o = true) :
    (fetchGames st o).games = st.games ∧
    (fetchGames st o).pagination = st.pagination ∧
    (fetchGames st o).currentPage = st.currentPage ∧
    (fetchGames st o).pageSize = st.pageSize ∧
    (fetchGames st o).selectedCategoryId = st.selectedCategoryId ∧
    (fetchGames st o).selectedPublisherId = st.selectedPublisherId ∧
    (fetchGames st o).location = st.location ∧
    (fetchGames st o).loading = false ∧
    ((fetchGames st o).error).isSome = true := by
  cases o with
  | networkError msg => simp [fetchGames]
  | http status text body =>
    simp only [isFailureOutcome] at h
    by_cases hok : responseOk status
    · cases body with
      | parseError msg => simp [fetchGames, hok]
      | ok payload => simp [hok] at h
    · simp [fetchGames, hok]

theorem spec_C10_witness :
    (fetchGames initialState
      (FetchOutcome.http 500 "Internal Server Error" (JsonResult.ok ⟨none, none⟩))).pagination
      = initialState.pagination ∧
    (fetchGames initialState
      (FetchOutcome.http 500 "Internal Server Error" (JsonResult.ok ⟨none, none⟩))).location
      = initialState.location :=
  ⟨(spec_C10 initialState
      (FetchOutcome.http 500 "Internal Server Error" (JsonResult.ok ⟨none, none⟩))
      (by decide)).2.1,
   (spec_C10 initialState
      (FetchOutcome.http 500 "Internal Server Error" (JsonResult.ok ⟨none, none⟩))
      (by decide)).2.2.2.2.2.2.1⟩

/-! ### URLStateSync parsing lemmas -/

theorem sync_selectedCategoryId (ps : List (String × String)) (st : ComponentState) :
    (syncFiltersFromUrl ps st).selectedCategoryId = (getParam ps "category_id").getD "" := by
  simp only [syncFiltersFromUrl]
  cases getParam ps "per_page" with
  | none => rfl
  | some s =>
    by_cases hs : s = ""
    · simp [hs]
    · simp only [if_neg hs]
      cases jsParseInt s with
      | none => rfl
      | some v => by_cases hv : v ∈ pageSizeOptions <;> simp [hv]

theorem sync_selectedPublisherId (ps : List (String × String)) (st : ComponentState) :
    (syncFiltersFromUrl ps st).selectedPublisherId = (getParam ps "publisher_id").getD "" := by
  simp only [syncFiltersFromUrl]
  cases getParam ps "per_page" with
  | none => rfl
  | some s =>
    by_cases hs : s = ""
    · simp [hs]
    · simp only [if_neg hs]
      cases jsParseInt s with
      | none => rfl
      | some v => by_cases hv : v ∈ pageSizeOptions <;> simp [hv]

theorem sync_currentPage (ps : List (String × String)) (st : ComponentState) :
    (syncFiltersFromUrl ps st).currentPage
      = (match getParam ps "page" with
         | none => 1
         | some s =>
           if s = "" then 1
           else match jsParseInt s with
                | none => 1
                | some v => if v < 1 then 1 else v) := by
  simp only [syncFiltersFromUrl]
  have hinner :
      ∀ st1 : ComponentState,
        (match getParam ps "per_page" with
         | some s =>
           if s = "" then st1
           else
             match jsParseInt s with
             | some v => if pageSizeOptions.contains v then { st1 with pageSize := v } else st1
             | none => st1
         | none => st1).currentPage = st1.currentPage := by
    intro st1
    cases getParam ps "per_page" with
    | none => rfl
    | some s =>
      by_cases hs : s = ""
      · simp [hs]
      · simp only [if_neg hs]
        cases jsParseInt s with
        | none => rfl
        | some v => by_cases hv : v ∈ pageSizeOptions <;> simp [hv]
  rw [hinner]
  cases getParam ps "page" with
  | none => rfl
  | some s =>
    by_cases hs : s = ""
    · simp [hs]
    · simp only [if_neg hs]

theorem sync_pageSize (ps : List (String × String)) (st : ComponentState) :
    (syncFiltersFromUrl ps st).pageSize
      = (match getParam ps "per_page" with
         | none => st.pageSize
         | some s =>
           if s = "" then st.pageSize
           else match jsParseInt s with
                | none => st.pageSize
                | some v => if pageSizeOptions.contains v then v else st.pageSize) := by
  simp only [syncFiltersFromUrl]
  cases getParam ps "per_page" with
  | none => rfl
  | some s =>
    by_cases hs : s = ""
    · simp [hs]
    · simp only [if_neg hs]
      cases jsParseInt s with
      | none => rfl
      | some v => by_cases hv : v ∈ pageSizeOptions <;> simp [hv]

theorem getParam_urlQueryParams_cat (cat pub : String) (p : Pagination) :
    getParam (urlQueryParams cat pub p) "category_id"
      = (if cat = "" then none else some cat) := by
  by_cases hc : cat = "" <;> by_cases hp : pub = "" <;>
    simp [urlQueryParams, getParam, hc, hp]

theorem getParam_urlQueryParams_pub (cat pub : String) (p : Pagination) :
    getParam (urlQueryParams cat pub p) "publisher_id"
      = (if pub = "" then none else some pub) := by
  by_cases hc : cat = "" <;> by_cases hp : pub = "" <;>
    simp [urlQueryParams, getParam, hc, hp]

theorem getParam_urlQueryParams_page (cat pub : String) (p : Pagination) :
    getParam (urlQueryParams cat pub p) "page" = some (jsNumToString p.page) := by
  by_cases hc : cat = "" <;> by_cases hp : pub = "" <;>
    simp [urlQueryParams, getParam, hc, hp]

theorem getParam_urlQueryParams_per (cat pub : String) (p : Pagination) :
    getParam (urlQueryParams cat pub p) "per_page" = some (jsNumToString p.per_page) := by
  by_cases hc : cat = "" <;> by_cases hp : pub = "" <;>
    simp [urlQueryParams, getParam, hc, hp]

/-! ### Claim C3: URL round trip -/

/-- C3: writing the current filter selection and a pagination state with
`page ≥ 1` and `perPage ∈ {10, 20, 50}` to the location and parsing the
location back yields the same filter selection, requested page and requested
per-page. -/
theorem spec_C3 (st : ComponentState) (p : Pagination) (hpage : 1 ≤ p.page)
    (hpp : p.per_page = 10 ∨ p.per_page = 20 ∨ p.per_page = 50) :
    (syncFiltersFromUrl (updateBrowserUrl st p).location initialState).selectedCategoryId
      = st.selectedCategoryId ∧
    (syncFiltersFromUrl (updateBrowserUrl st p).location initialState).selectedPublisherId
      = st.selectedPublisherId ∧
    (syncFiltersFromUrl (updateBrowserUrl st p).location initialState).currentPage = p.page ∧
    (syncFiltersFromUrl (updateBrowserUrl st p).location initialState).pageSize = p.per_page := by
  have hloc : (updateBrowserUrl st p).location
      = urlQueryParams st.selectedCategoryId st.selectedPublisherId p := rfl
  have hparse : jsParseInt (jsNumToString p.page) = some p.page :=
    jsParseInt_jsNumToString p.page (by omega)
  have hparse2 : jsParseInt (jsNumToString p.per_page) = some p.per_page :=
    jsParseInt_jsNumToString p.per_page (by rcases hpp with h | h | h <;> omega)
  have hcontains : pageSizeOptions.contains p.per_page = true := by
    rcases hpp with h | h | h <;> rw [h] <;> decide
  refine ⟨?_, ?_, ?_, ?_⟩
  · rw [hloc, sync_selectedCategoryId, getParam_urlQueryParams_cat]
    by_cases hc : st.selectedCategoryId = "" <;> simp [hc]
  · rw [hloc, sync_selectedPublisherId, getParam_urlQueryParams_pub]
    by_cases hp : st.selectedPublisherId = "" <;> simp [hp]
  · rw [hloc, sync_currentPage, getParam_urlQueryParams_page]
    show (if jsNumToString p.page = "" then 1
      else match jsParseInt (jsNumToString p.page) with
           | none => 1
           | some v => if v < 1 then 1 else v) = p.page
    rw [if_neg (jsNumToString_ne_empty p.page), hparse]
    show (if p.page < 1 then 1 else p.page) = p.page
    rw [if_neg (by omega)]
  · rw [hloc, sync_pageSize, getParam_urlQueryParams_per]
    show (if jsNumToString p.per_page = "" then initialState.pageSize
      else match jsParseInt (jsNumToString p.per_page) with
           | none => initialState.pageSize
           | some v => if pageSizeOptions.contains v then v else initialState.pageSize)
      = p.per_page
    rw [if_neg (jsNumToString_ne_empty p.per_page), hparse2]
    show (if pageSizeOptions.contains p.per_page then p.per_page else initialState.pageSize)
      = p.per_page
    rw [if_pos hcontains]

theorem spec_C3_witness :
    (syncFiltersFromUrl
      (updateBrowserUrl { initialState with selectedCategoryId := "7" }
        ⟨3, 50, 95, 2, false, true⟩).location initialState).currentPage = 3 ∧
    (syncFiltersFromUrl
      (updateBrowserUrl { initialState with selectedCategoryId := "7" }
        ⟨3, 50, 95, 2, false, true⟩).location initialState).pageSize = 50 :=
  ⟨(spec_C3 { initialState with selectedCategoryId := "7" } ⟨3, 50, 95, 2, false, true⟩
      (by decide) (by decide)).2.2.1,
   (spec_C3 { initialState with selectedCategoryId := "7" } ⟨3, 50, 95, 2, false, true⟩
      (by decide) (by decide)).2.2.2⟩

/-! ### Claim C8: parse defaulting at mount -/

/-- C8: parsing the query string at mount yields requested page 1 whenever
the `page` parameter is absent, fails to parse, or parses below 1 (otherwise
the parsed value), and yields the requested per-page only when `per_page`
parses to a member of `{10, 20, 50}`, keeping the default 20 otherwise. -/
theorem spec_C8 (ps : List (String × String)) :
    (syncFiltersFromUrl ps initialState).currentPage
      = (match (getParam ps "page").bind jsParseInt with
         | none => 1
         | some v => if v < 1 then 1 else v) ∧
    (syncFiltersFromUrl ps initialState).pageSize
      = (match (getParam ps "per_page").bind jsParseInt with
         | none => 20
         | some v => if pageSizeOptions.contains v then v else 20) := by
  constructor
  · rw [sync_currentPage]
    cases getParam ps "page" with
    | none => rfl
    | some s =>
      by_cases hs : s = ""
      · subst hs
        simp [jsParseInt]
      · show (if s = "" then (1 : Int)
            else match jsParseInt s with
                 | none => (1 : Int)
                 | some v => if v < 1 then 1 else v)
          = (match (some s).bind jsParseInt with
             | none => (1 : Int)
             | some v => if v < 1 then 1 else v)
        rw [if_neg hs]
        rfl
  · rw [sync_pageSize]
    cases getParam ps "per_page" with
    | none => rfl
    | some s =>
      by_cases hs : s = ""
      · subst hs
        simp [jsParseInt, initialState]
      · show (if s = "" then initialState.pageSize
            else match jsParseInt s with
                 | none => initialState.pageSize
                 | some v => if pageSizeOptions.contains v then v else initialState.pageSize)
          = (match (some s).bind jsParseInt with
             | none => (20 : Int)
             | some v => if pageSizeOptions.contains v then v else 20)
        rw [if_neg hs]
        rfl

/-! ### Claim C2: the pagination window -/

theorem numericEntries_append (a b : List PageItem) :
    numericEntries (a ++ b) = numericEntries a ++ numericEntries b := by
  simp [numericEntries, List.filterMap_append]

theorem numericEntries_page (n : Int) : numericEntries [PageItem.page n] = [n] := rfl

theorem numericEntries_ellipsis : numericEntries [PageItem.ellipsis] = [] := rfl

theorem numericEntries_nil : numericEntries [] = [] := rfl

theorem numericEntries_page_cons (n : Int) (l : List PageItem) :
    numericEntries (PageItem.page n :: l) = n :: numericEntries l := by
  simp [numericEntries, List.filterMap_cons]

theorem numericEntries_ellipsis_cons (l : List PageItem) :
    numericEntries (PageItem.ellipsis :: l) = numericEntries l := by
  simp [numericEntries, List.filterMap_cons]

theorem numericEntries_map_page {α : Type} (f : α → Int) (l : List α) :
    numericEntries (l.map fun a => PageItem.page (f a)) = l.map f := by
  induction l with
  | nil => rfl
  | cons a l ih => simp [numericEntries, List.filterMap_cons] at ih ⊢; exact ih

theorem pairwise_lt_map_add (lo : Int) (n : Nat) :
    (((List.range n).map (fun (i : Nat) => lo + (i : Int)))).Pairwise (· < ·) :=
  List.Pairwise.map _ (fun a b h => by omega) (List.pairwise_lt_range n)

theorem pairwise_window (lo total : Int) (n : Nat) (h1 : 1 < lo)
    (h2 : ∀ i : Nat, i < n → lo + (i : Int) < total) (h3 : (1 : Int) < total) :
    ((1 : Int) :: ((List.range n).map (fun (i : Nat) => lo + (i : Int)) ++ [total])).Pairwise
      (· < ·) := by
  rw [List.pairwise_cons]
  constructor
  · intro b hb
    rcases List.mem_append.1 hb with hm | hm
    · obtain ⟨i, hi, rfl⟩ := List.mem_map.1 hm
      have := List.mem_range.1 hi
      omega
    · rw [List.mem_singleton] at hm
      omega
  · rw [List.pairwise_append]
    refine ⟨pairwise_lt_map_add lo n, by simp, ?_⟩
    intro x hx y hy
    obtain ⟨i, hi, rfl⟩ := List.mem_map.1 hx
    rw [List.mem_singleton] at hy
    subst hy
    exact h2 i (List.mem_range.1 hi)

/-- C2: for every `current ∈ [1, total]` (with windowSize 2) the derived
`paginationItems` computation equals the reference definition written from
the spec's wording, and its numeric entries are strictly increasing with no
duplicates. -/
theorem spec_C2 (total current : Int) (hc1 : 1 ≤ current) (hc2 : current ≤ total) :
    paginationItems total current = computeWindowSpec current total 2 ∧
    (numericEntries (paginationItems total current)).Pairwise (· < ·) ∧
    (numericEntries (paginationItems total current)).Nodup := by
  have heq : paginationItems total current = computeWindowSpec current total 2 := by
    by_cases h7 : total ≤ 7
    · simp [paginationItems, computeWindowSpec, h7]
    · simp only [paginationItems, computeWindowSpec, if_neg h7]
      split_ifs <;> simp [List.append_assoc]
  have hpw : (numericEntries (paginationItems total current)).Pairwise (· < ·) := by
    by_cases h7 : total ≤ 7
    · simp only [paginationItems, if_pos h7]
      rw [numericEntries_map_page]
      exact List.Pairwise.map _ (fun a b h => by omega) (List.pairwise_lt_range _)
    · simp only [paginationItems, if_neg h7]
      split_ifs with hg1 hg2 hg2 <;>
        simp only [numericEntries_append, numericEntries_page, numericEntries_ellipsis,
          numericEntries_nil, numericEntries_page_cons, numericEntries_ellipsis_cons,
          numericEntries_map_page, List.append_nil, List.nil_append,
          List.singleton_append, List.append_assoc] <;>
        exact pairwise_window _ total _ (by omega) (fun i hi => by omega) (by omega)
  exact ⟨heq, hpw, hpw.imp (fun h => ne_of_lt h)⟩

theorem spec_C2_witness :
    paginationItems 10 5 = computeWindowSpec 5 10 2 ∧
    (numericEntries (paginationItems 10 5)).Pairwise (· < ·) ∧
    (numericEntries (paginationItems 10 5)).Nodup :=
  spec_C2 10 5 (by decide) (by decide)

end GameList
